import Mathlib

/-!
Shallow embedding of the concurrent route-probing engine of
src/ClaudeCodeSpeedTest.py (class ConcurrentRouteTest), together with
verification of its specified properties.

Durations are modelled as rationals, machine integers as naturals.
Fallible operations (HTTP probes, route runners) are modelled by explicit
outcome types; the non-deterministic completion order of concurrently
executing tasks is modelled by quantifying over the permutation of
outcomes that the thread-based collection loops observe.
-/

/-- Embeds the dataclass TestResult (lines 32-38 of the source). -/
structure TestResult where
  success : Bool
  total_time : ℚ
  first_byte_time : ℚ
  error : String
  thread_id : ℕ
deriving DecidableEq

/-- One chunk of a streamed HTTP response body: whether it is non-empty
(truthy in Python) and the time at which it arrives. -/
structure Chunk where
  nonempty : Bool
  arrival : ℚ
deriving DecidableEq

/-- The observable behaviour of the network during one async probe:
either a response (status code, body chunks, time at which the body is
fully drained) or one of the exceptions the async prober distinguishes
(lines 289-294). -/
inductive AsyncNetBehavior where
  | response (status : ℕ) (chunks : List Chunk) (endTime : ℚ)
  | timeoutExc
  | clientError (msg : String)
  | otherExc (msg : String)
deriving DecidableEq

/-- The observable behaviour of the network during one sync probe
(exception taxonomy of lines 342-347). -/
inductive SyncNetBehavior where
  | response (status : ℕ) (chunks : List Chunk) (endTime : ℚ)
  | timeoutExc
  | connectionError
  | otherExc (msg : String)
deriving DecidableEq

/-- Embeds test_single_request_async (lines 251-294): non-200 status,
absence of any non-empty chunk, and each exception kind yield a failed
TestResult with zero durations; on success the first non-empty chunk
stamps the first-byte time and the drained end time stamps the total. -/
def test_single_request_async (start : ℚ) (thread_id : ℕ)
    (net : AsyncNetBehavior) : TestResult :=
  match net with
  | .timeoutExc => ⟨false, 0, 0, "Timeout", thread_id⟩
  | .clientError m => ⟨false, 0, 0, "Client Error: " ++ m, thread_id⟩
  | .otherExc m => ⟨false, 0, 0, m, thread_id⟩
  | .response status chunks endTime =>
    if status ≠ 200 then ⟨false, 0, 0, "HTTP " ++ toString status, thread_id⟩
    else
      match chunks.find? (fun c => c.nonempty) with
      | none => ⟨false, 0, 0, "No response data", thread_id⟩
      | some c => ⟨true, endTime - start, c.arrival - start, "", thread_id⟩

/-- Embeds test_single_request_sync (lines 296-347); identical shape, with
the requests-library exception taxonomy. -/
def test_single_request_sync (start : ℚ) (thread_id : ℕ)
    (net : SyncNetBehavior) : TestResult :=
  match net with
  | .timeoutExc => ⟨false, 0, 0, "Timeout", thread_id⟩
  | .connectionError => ⟨false, 0, 0, "Connection Error", thread_id⟩
  | .otherExc m => ⟨false, 0, 0, m, thread_id⟩
  | .response status chunks endTime =>
    if status ≠ 200 then ⟨false, 0, 0, "HTTP " ++ toString status, thread_id⟩
    else
      match chunks.find? (fun c => c.nonempty) with
      | none => ⟨false, 0, 0, "No response data", thread_id⟩
      | some c => ⟨true, endTime - start, c.arrival - start, "", thread_id⟩

/-- Embeds the per-route results dictionary built by test_route_async /
test_route_sync (lines 370-380 / 400-410). -/
structure RouteResult where
  route_name : String
  url : String
  description : String
  success_count : ℕ
  fail_count : ℕ
  total_times : List ℚ
  first_byte_times : List ℚ
  errors : List String
  concurrent_threads : Finset ℕ
deriving DecidableEq

/-- The freshly initialised results dictionary of lines 370-380. -/
def initRouteResult (route_name url description : String) : RouteResult :=
  ⟨route_name, url, description, 0, 0, [], [], [], ∅⟩

/-- One settled probe task as the collection loops see it: either a
TestResult, or an exception object (async gather with return_exceptions,
line 367; a future whose result() raises, lines 423-435). -/
inductive ProbeItem where
  | result (r : TestResult)
  | exc (msg : String)
deriving DecidableEq

/-- One iteration of the result-processing loop (lines 382-394, identical
logic at lines 422-435): a TestResult contributes its thread id and either
a success (latencies appended) or a failure (error appended); an exception
entry counts as a failure with its string form as the message. -/
def record_outcome (acc : RouteResult) (item : ProbeItem) : RouteResult :=
  match item with
  | .result r =>
    let acc1 :=
      { acc with concurrent_threads := insert r.thread_id acc.concurrent_threads }
    if r.success then
      { acc1 with success_count := acc1.success_count + 1,
                  total_times := acc1.total_times ++ [r.total_time],
                  first_byte_times := acc1.first_byte_times ++ [r.first_byte_time] }
    else
      { acc1 with fail_count := acc1.fail_count + 1,
                  errors := acc1.errors ++ [r.error] }
  | .exc e =>
    { acc with fail_count := acc.fail_count + 1, errors := acc.errors ++ [e] }

/-- Embeds test_route_async (lines 349-396): exactly test_count tasks are
submitted (line 366); asyncio.gather preserves submission order, so the
processing loop folds over the outcomes in submission order.  probe i is
the settled outcome of the i-th submitted task. -/
def test_route_async (route_name url description : String) (test_count : ℕ)
    (probe : ℕ → ProbeItem) : RouteResult :=
  ((List.range test_count).map probe).foldl record_outcome
    (initRouteResult route_name url description)

/-- Embeds test_route_sync (lines 398-437): the thread pool settles the
submitted tasks in an unspecified completion order; as_completed yields
each future exactly once, so the loop folds over some permutation
completed of the submitted tasks' outcomes. -/
def test_route_sync (route_name url description : String)
    (completed : List ProbeItem) : RouteResult :=
  completed.foldl record_outcome (initRouteResult route_name url description)

/-- Embeds the stats dictionary returned by calculate_stats (keys avg,
min, max, median). -/
structure Stats where
  avg : ℚ
  min : ℚ
  max : ℚ
  median : ℚ
deriving DecidableEq

/-- Python statistics.mean: sum divided by length. -/
def pymean (times : List ℚ) : ℚ := times.sum / (times.length : ℚ)

/-- Python min over a non-empty list (0 on the empty list, which the
source never reaches because calculate_stats guards emptiness). -/
def pymin : List ℚ → ℚ
  | [] => 0
  | a :: as => as.foldl min a

/-- Python max over a non-empty list. -/
def pymax : List ℚ → ℚ
  | [] => 0
  | a :: as => as.foldl max a

/-- Python statistics.median: sort ascending; middle element for odd
length, mean of the two middle elements for even length. -/
def pymedian (times : List ℚ) : ℚ :=
  let s := List.insertionSort (fun a b : ℚ => a ≤ b) times
  let n := times.length
  if n % 2 = 1 then s.getD (n / 2) 0
  else (s.getD (n / 2 - 1) 0 + s.getD (n / 2) 0) / 2

/-- Embeds calculate_stats (lines 439-449). -/
def calculate_stats (times : List ℚ) : Stats :=
  if times = [] then ⟨0, 0, 0, 0⟩
  else ⟨pymean times, pymin times, pymax times, pymedian times⟩

/-- Identity of one configured route as stored in self.routes (an ordered
dictionary: insertion order is configuration-file order). -/
structure RouteInfo where
  name : String
  url : String
  description : String
deriving DecidableEq

/-- What one route-level task delivers to the scheduler: the RouteResult
returned by the route runner, or the exception it raised. -/
inductive RunnerOutcome where
  | ok (r : RouteResult)
  | exc (msg : String)
deriving DecidableEq

/-- What run_tests_async leaves behind: self.results fully populated, or
an uncaught exception that aborted the coroutine. -/
inductive RunOutcome where
  | ok (results : List RouteResult)
  | exc (msg : String)
deriving DecidableEq

/-- Embeds run_tests_async (lines 509-519): one task per route in
configuration order; asyncio.gather WITHOUT return_exceptions, so a route
runner that raises makes gather re-raise and nothing is appended to
self.results; otherwise gather returns the results in task submission
order and the loop appends them in that order. -/
def run_tests_async (routes : List RouteInfo)
    (runner : RouteInfo → RunnerOutcome) : RunOutcome :=
  match routes with
  | [] => .ok []
  | rc :: rest =>
    match runner rc with
    | .exc e => .exc e
    | .ok r =>
      match run_tests_async rest runner with
      | .exc e => .exc e
      | .ok rs => .ok (r :: rs)

/-- Embeds run_tests_sync (lines 599-634): as_completed yields the route
futures in completion order completed; a future whose result() returns is
appended to self.results, a future whose result() raises is only printed
(lines 632-634) and contributes nothing to self.results. -/
def run_tests_sync (runner : RouteInfo → RunnerOutcome)
    (completed : List RouteInfo) : List RouteResult :=
  completed.foldl (fun acc rc =>
    match runner rc with
    | .ok r => acc ++ [r]
    | .exc _ => acc) []

/-- The sort key of the display ordering (lines 673-680): success_count
paired with the negated mean first-byte time when latency data exists,
else the sentinel 999; the list is sorted on this key descending. -/
def display_key (r : RouteResult) : ℚ × ℚ :=
  ((r.success_count : ℚ),
    if r.first_byte_times ≠ [] then -(calculate_stats r.first_byte_times).avg
    else 999)

/-- r comes no later than s in the descending display order: strictly
larger key, or equal first component and no smaller second component. -/
def display_ge (r s : RouteResult) : Prop :=
  (display_key s).1 < (display_key r).1 ∨
    ((display_key r).1 = (display_key s).1 ∧ (display_key s).2 ≤ (display_key r).2)

instance : DecidableRel display_ge := fun r s => by
  unfold display_ge
  infer_instance

instance : IsTotal RouteResult display_ge :=
  ⟨fun r s => by
    unfold display_ge
    rcases lt_trichotomy (display_key r).1 (display_key s).1 with h | h | h
    · exact Or.inr (Or.inl h)
    · rcases le_total (display_key s).2 (display_key r).2 with h2 | h2
      · exact Or.inl (Or.inr ⟨h, h2⟩)
      · exact Or.inr (Or.inr ⟨h.symm, h2⟩)
    · exact Or.inl (Or.inl h)⟩

instance : IsTrans RouteResult display_ge :=
  ⟨fun r s t hrs hst => by
    unfold display_ge at hrs hst ⊢
    rcases hrs with h1 | ⟨h1, h1b⟩
    · rcases hst with h2 | ⟨h2, _⟩
      · exact Or.inl (h2.trans h1)
      · exact Or.inl (h2 ▸ h1)
    · rcases hst with h2 | ⟨h2, h2b⟩
      · exact Or.inl (h1 ▸ h2)
      · exact Or.inr ⟨h1.trans h2, h2b.trans h1b⟩⟩

/-- Embeds the display sort of lines 673-680: Python sorted() is a stable
sort, and reverse=True with a tuple key is the stable sort by the
descending lexicographic key order, which is exactly the stable insertion
sort by display_ge. -/
def sorted_results (results : List RouteResult) : List RouteResult :=
  List.insertionSort display_ge results

/-- Embeds the score computation of lines 693-696 (evaluated only for
results with success_count > 0). -/
def route_score (test_count : ℕ) (result : RouteResult) : ℚ :=
  let success_ratio : ℚ := (result.success_count : ℚ) / (test_count : ℚ)
  let avg_first_byte : ℚ :=
    if result.first_byte_times ≠ [] then pymean result.first_byte_times else 999
  success_ratio * (7 / 10) + (1 / (avg_first_byte + 1 / 10)) * (3 / 10)

/-- One iteration of the best-route selection loop (lines 685-700): a
result with at least one success is scored and replaces the incumbent
exactly when its score is strictly larger; a result with zero successes
is never scored. -/
def best_step (test_count : ℕ) (acc : Option RouteResult × ℚ)
    (result : RouteResult) : Option RouteResult × ℚ :=
  if 0 < result.success_count then
    let score := route_score test_count result
    if acc.2 < score then (some result, score) else acc
  else acc

/-- The best_route / best_score fold of generate_report (lines 682-700),
run over the display-sorted results with best_route = None and
best_score = -1 initially. -/
def best_route_fold (test_count : ℕ) (results : List RouteResult) :
    Option RouteResult × ℚ :=
  results.foldl (best_step test_count) (none, -1)

/-- The route the recommendation panel shows (lines 759-785): the panel is
rendered only when best_route is not None. -/
def best_route (test_count : ℕ) (results : List RouteResult) :
    Option RouteResult :=
  (best_route_fold test_count (sorted_results results)).1

/-! ### Helper lemmas about the Python min / max folds -/

lemma foldl_min_mem (a : ℚ) (l : List ℚ) : l.foldl min a ∈ a :: l := by
  induction l generalizing a with
  | nil => simp
  | cons b t ih =>
    simp only [List.foldl_cons]
    rcases List.mem_cons.mp (ih (min a b)) with h2 | h2
    · rw [List.mem_cons, List.mem_cons]
      rcases min_choice a b with h | h
      · exact Or.inl (h2.trans h)
      · exact Or.inr (Or.inl (h2.trans h))
    · exact List.mem_cons.mpr (Or.inr (List.mem_cons.mpr (Or.inr h2)))

lemma foldl_min_le (a : ℚ) (l : List ℚ) : ∀ x ∈ a :: l, l.foldl min a ≤ x := by
  induction l generalizing a with
  | nil => simp
  | cons b t ih =>
    intro x hx
    simp only [List.foldl_cons]
    have h1 := ih (min a b)
    have hmin : List.foldl min (min a b) t ≤ min a b :=
      h1 (min a b) (List.mem_cons_self _ _)
    rcases List.mem_cons.mp hx with h | h
    · subst h
      exact le_trans hmin (min_le_left _ _)
    · rcases List.mem_cons.mp h with h3 | h3
      · subst h3
        exact le_trans hmin (min_le_right _ _)
      · exact h1 x (List.mem_cons.mpr (Or.inr h3))

lemma foldl_max_mem (a : ℚ) (l : List ℚ) : l.foldl max a ∈ a :: l := by
  induction l generalizing a with
  | nil => simp
  | cons b t ih =>
    simp only [List.foldl_cons]
    rcases List.mem_cons.mp (ih (max a b)) with h2 | h2
    · rw [List.mem_cons, List.mem_cons]
      rcases max_choice a b with h | h
      · exact Or.inl (h2.trans h)
      · exact Or.inr (Or.inl (h2.trans h))
    · exact List.mem_cons.mpr (Or.inr (List.mem_cons.mpr (Or.inr h2)))

lemma le_foldl_max (a : ℚ) (l : List ℚ) : ∀ x ∈ a :: l, x ≤ l.foldl max a := by
  induction l generalizing a with
  | nil => simp
  | cons b t ih =>
    intro x hx
    simp only [List.foldl_cons]
    have h1 := ih (max a b)
    have hmax : max a b ≤ List.foldl max (max a b) t :=
      h1 (max a b) (List.mem_cons_self _ _)
    rcases List.mem_cons.mp hx with h | h
    · subst h
      exact le_trans (le_max_left _ _) hmax
    · rcases List.mem_cons.mp h with h3 | h3
      · subst h3
        exact le_trans (le_max_right _ _) hmax
      · exact h1 x (List.mem_cons.mpr (Or.inr h3))

lemma pymin_mem {l : List ℚ} (h : l ≠ []) : pymin l ∈ l := by
  cases l with
  | nil => exact absurd rfl h
  | cons a t => exact foldl_min_mem a t

lemma pymin_le {l : List ℚ} : ∀ x ∈ l, pymin l ≤ x := by
  cases l with
  | nil => simp
  | cons a t => exact foldl_min_le a t

lemma pymax_mem {l : List ℚ} (h : l ≠ []) : pymax l ∈ l := by
  cases l with
  | nil => exact absurd rfl h
  | cons a t => exact foldl_max_mem a t

lemma le_pymax {l : List ℚ} : ∀ x ∈ l, x ≤ pymax l := by
  cases l with
  | nil => simp
  | cons a t => exact le_foldl_max a t

lemma pymin_perm {l l' : List ℚ} (h : l.Perm l') : pymin l = pymin l' := by
  rcases eq_or_ne l [] with rfl | hne
  · rw [List.nil_perm.mp h]
  · have hne' : l' ≠ [] := fun h0 => hne (List.perm_nil.mp (h0 ▸ h))
    exact le_antisymm (pymin_le _ (h.mem_iff.mpr (pymin_mem hne')))
      (pymin_le _ (h.mem_iff.mp (pymin_mem hne)))

lemma pymax_perm {l l' : List ℚ} (h : l.Perm l') : pymax l = pymax l' := by
  rcases eq_or_ne l [] with rfl | hne
  · rw [List.nil_perm.mp h]
  · have hne' : l' ≠ [] := fun h0 => hne (List.perm_nil.mp (h0 ▸ h))
    exact le_antisymm (le_pymax _ (h.mem_iff.mp (pymax_mem hne)))
      (le_pymax _ (h.mem_iff.mpr (pymax_mem hne')))

lemma insertionSort_le_perm_eq {l l' : List ℚ} (h : l.Perm l') :
    List.insertionSort (fun a b : ℚ => a ≤ b) l
      = List.insertionSort (fun a b : ℚ => a ≤ b) l' :=
  List.eq_of_perm_of_sorted (r := fun a b : ℚ => a ≤ b)
    ((List.perm_insertionSort _ l).trans (h.trans (List.perm_insertionSort _ l').symm))
    (List.sorted_insertionSort _ l) (List.sorted_insertionSort _ l')

lemma pymedian_perm {l l' : List ℚ} (h : l.Perm l') : pymedian l = pymedian l' := by
  unfold pymedian
  rw [insertionSort_le_perm_eq h, h.length_eq]

lemma pymean_perm {l l' : List ℚ} (h : l.Perm l') : pymean l = pymean l' := by
  unfold pymean
  rw [h.sum_eq, h.length_eq]

lemma calculate_stats_perm {l l' : List ℚ} (h : l.Perm l') :
    calculate_stats l = calculate_stats l' := by
  unfold calculate_stats
  rcases eq_or_ne l [] with rfl | hne
  · rw [List.nil_perm.mp h]
  · have hne' : l' ≠ [] := fun h0 => hne (List.perm_nil.mp (h0 ▸ h))
    rw [if_neg hne, if_neg hne', pymean_perm h, pymin_perm h, pymax_perm h,
      pymedian_perm h]

/-! ### Characterising the result-processing fold -/

/-- Whether a settled probe task counts as a success in the processing
loop. -/
def item_success : ProbeItem → Bool
  | .result r => r.success
  | .exc _ => false

/-- The total-latency contribution of a settled probe task. -/
def item_total : ProbeItem → Option ℚ
  | .result r => if r.success then some r.total_time else none
  | .exc _ => none

/-- The first-byte-latency contribution of a settled probe task. -/
def item_first_byte : ProbeItem → Option ℚ
  | .result r => if r.success then some r.first_byte_time else none
  | .exc _ => none

/-- The error-message contribution of a settled probe task. -/
def item_error : ProbeItem → Option String
  | .result r => if r.success then none else some r.error
  | .exc e => some e

lemma foldl_record_success_count (items : List ProbeItem) :
    ∀ acc : RouteResult,
      (items.foldl record_outcome acc).success_count
        = acc.success_count + items.countP item_success := by
  induction items with
  | nil => intro acc; simp
  | cons i t ih =>
    intro acc
    rw [List.foldl_cons, ih, List.countP_cons]
    cases i with
    | result r =>
      cases hr : r.success <;> simp [record_outcome, item_success, hr] <;> omega
    | exc e => simp [record_outcome, item_success]

lemma foldl_record_fail_count (items : List ProbeItem) :
    ∀ acc : RouteResult,
      (items.foldl record_outcome acc).fail_count
        = acc.fail_count + items.countP (fun i => !item_success i) := by
  induction items with
  | nil => intro acc; simp
  | cons i t ih =>
    intro acc
    rw [List.foldl_cons, ih, List.countP_cons]
    cases i with
    | result r =>
      cases hr : r.success <;> simp [record_outcome, item_success, hr] <;> omega
    | exc e => simp [record_outcome, item_success]; omega

lemma foldl_record_total_times (items : List ProbeItem) :
    ∀ acc : RouteResult,
      (items.foldl record_outcome acc).total_times
        = acc.total_times ++ items.filterMap item_total := by
  induction items with
  | nil => intro acc; simp
  | cons i t ih =>
    intro acc
    rw [List.foldl_cons, ih]
    cases i with
    | result r =>
      cases hr : r.success <;> simp [record_outcome, item_total, hr]
    | exc e => simp [record_outcome, item_total]

lemma foldl_record_first_byte_times (items : List ProbeItem) :
    ∀ acc : RouteResult,
      (items.foldl record_outcome acc).first_byte_times
        = acc.first_byte_times ++ items.filterMap item_first_byte := by
  induction items with
  | nil => intro acc; simp
  | cons i t ih =>
    intro acc
    rw [List.foldl_cons, ih]
    cases i with
    | result r =>
      cases hr : r.success <;> simp [record_outcome, item_first_byte, hr]
    | exc e => simp [record_outcome, item_first_byte]

lemma foldl_record_errors (items : List ProbeItem) :
    ∀ acc : RouteResult,
      (items.foldl record_outcome acc).errors
        = acc.errors ++ items.filterMap item_error := by
  induction items with
  | nil => intro acc; simp
  | cons i t ih =>
    intro acc
    rw [List.foldl_cons, ih]
    cases i with
    | result r =>
      cases hr : r.success <;> simp [record_outcome, item_error, hr]
    | exc e => simp [record_outcome, item_error]

lemma length_filterMap_total (items : List ProbeItem) :
    (items.filterMap item_total).length = items.countP item_success := by
  induction items with
  | nil => rfl
  | cons i t ih =>
    cases i with
    | result r => cases hr : r.success <;> simp [item_total, item_success, hr, ih]
    | exc e => simp [item_total, item_success, ih]

lemma length_filterMap_first_byte (items : List ProbeItem) :
    (items.filterMap item_first_byte).length = items.countP item_success := by
  induction items with
  | nil => rfl
  | cons i t ih =>
    cases i with
    | result r =>
      cases hr : r.success <;> simp [item_first_byte, item_success, hr, ih]
    | exc e => simp [item_first_byte, item_success, ih]

lemma length_filterMap_error (items : List ProbeItem) :
    (items.filterMap item_error).length
      = items.countP (fun i => !item_success i) := by
  induction items with
  | nil => rfl
  | cons i t ih =>
    cases i with
    | result r =>
      cases hr : r.success <;> simp [item_error, item_success, hr, ih]
    | exc e => simp [item_error, item_success, ih]

lemma countP_success_add_fail (items : List ProbeItem) :
    items.countP item_success + items.countP (fun i => !item_success i)
      = items.length := by
  induction items with
  | nil => rfl
  | cons i t ih => cases h : item_success i <;> simp [h, ih] <;> omega

/-! ### Characterising the scheduler loops -/

lemma run_tests_sync_eq_filterMap (runner : RouteInfo → RunnerOutcome)
    (completed : List RouteInfo) :
    run_tests_sync runner completed
      = completed.filterMap (fun rc =>
          match runner rc with
          | .ok r => some r
          | .exc _ => none) := by
  have key : ∀ (cs : List RouteInfo) (acc : List RouteResult),
      cs.foldl (fun acc rc =>
          match runner rc with
          | .ok r => acc ++ [r]
          | .exc _ => acc) acc
        = acc ++ cs.filterMap (fun rc =>
            match runner rc with
            | .ok r => some r
            | .exc _ => none) := by
    intro cs
    induction cs with
    | nil => intro acc; simp
    | cons c t ih =>
      intro acc
      rw [List.foldl_cons]
      cases h : runner c with
      | ok r => simp [h, ih, List.filterMap_cons]
      | exc e => simp [h, ih, List.filterMap_cons]
  simpa [run_tests_sync] using key completed []

lemma run_tests_async_all_ok (routes : List RouteInfo)
    (runner : RouteInfo → RunnerOutcome) (res : RouteInfo → RouteResult)
    (h : ∀ rc ∈ routes, runner rc = .ok (res rc)) :
    run_tests_async routes runner = .ok (routes.map res) := by
  induction routes with
  | nil => rfl
  | cons c t ih =>
    have hc := h c (List.mem_cons_self _ _)
    have ht := ih (fun x hx => h x (List.mem_cons.mpr (Or.inr hx)))
    simp [run_tests_async, hc, ht]

lemma run_tests_async_exc (routes : List RouteInfo)
    (runner : RouteInfo → RunnerOutcome)
    (h : ∃ rc ∈ routes, ∃ m, runner rc = .exc m) :
    ∃ m, run_tests_async routes runner = .exc m := by
  induction routes with
  | nil =>
    rcases h with ⟨rc, hmem, _⟩
    cases hmem
  | cons c t ih =>
    rcases h with ⟨rc, hmem, m, hm⟩
    rcases List.mem_cons.mp hmem with h0 | hmem2
    · subst h0
      exact ⟨m, by simp [run_tests_async, hm]⟩
    · cases hc : runner c with
      | exc e => exact ⟨e, by simp [run_tests_async, hc]⟩
      | ok r =>
        rcases ih ⟨rc, hmem2, m, hm⟩ with ⟨m2, hm2⟩
        exact ⟨m2, by simp [run_tests_async, hc, hm2]⟩

/-! ### Characterising the best-route selection fold -/

lemma best_step_cases (tc : ℕ) (acc : Option RouteResult × ℚ)
    (r : RouteResult) :
    best_step tc acc r = acc
    ∨ (best_step tc acc r = (some r, route_score tc r) ∧ 0 < r.success_count) := by
  unfold best_step
  by_cases hr : 0 < r.success_count
  · by_cases hsc : acc.2 < route_score tc r
    · exact Or.inr ⟨by simp [hr, hsc], hr⟩
    · exact Or.inl (by simp [hr, hsc])
  · exact Or.inl (by simp [hr])

lemma foldl_best_step_cases (tc : ℕ) (results : List RouteResult) :
    ∀ acc : Option RouteResult × ℚ,
      (results.foldl (best_step tc) acc).1 = acc.1
      ∨ ∃ r ∈ results,
          (results.foldl (best_step tc) acc).1 = some r ∧ 0 < r.success_count := by
  induction results with
  | nil => intro acc; exact Or.inl rfl
  | cons r t ih =>
    intro acc
    rw [List.foldl_cons]
    rcases ih (best_step tc acc r) with h | ⟨s, hs, heq, hpos⟩
    · rcases best_step_cases tc acc r with h2 | ⟨h2, hr⟩
      · exact Or.inl (h.trans (congrArg Prod.fst h2))
      · exact Or.inr ⟨r, List.mem_cons_self _ _, h.trans (congrArg Prod.fst h2), hr⟩
    · exact Or.inr ⟨s, List.mem_cons.mpr (Or.inr hs), heq, hpos⟩

lemma foldl_best_step_all_zero (tc : ℕ) (results : List RouteResult)
    (h : ∀ r ∈ results, r.success_count = 0) :
    ∀ acc : Option RouteResult × ℚ, results.foldl (best_step tc) acc = acc := by
  induction results with
  | nil => intro acc; rfl
  | cons r t ih =>
    intro acc
    rw [List.foldl_cons]
    have hr : ¬ 0 < r.success_count := by
      rw [h r (List.mem_cons_self _ _)]
      exact lt_irrefl 0
    have hstep : best_step tc acc r = acc := by
      unfold best_step
      simp [hr]
    rw [hstep]
    exact ih (fun x hx => h x (List.mem_cons.mpr (Or.inr hx))) acc

/-! ### Claim theorems -/

lemma calculate_stats_avg {l : List ℚ} (h : l ≠ []) :
    (calculate_stats l).avg = pymean l := by
  unfold calculate_stats
  rw [if_neg h]

/-- C8: calculate_stats over the empty duration sequence returns all-zero
statistics, and over the sequence 100, 200, 300 returns mean 200, min
100, max 300, median 200. -/
theorem C8_stats_values :
    calculate_stats [] = ⟨0, 0, 0, 0⟩
    ∧ calculate_stats [100, 200, 300] = ⟨200, 100, 300, 200⟩ := by
  constructor
  · rfl
  · have h1 : pymean [100, 200, 300] = 200 := by
      norm_num [pymean]
    have h2 : pymin [100, 200, 300] = 100 := by
      norm_num [pymin, min_def]
    have h3 : pymax [100, 200, 300] = 300 := by
      norm_num [pymax, max_def]
    have h4 : pymedian [100, 200, 300] = 200 := by
      norm_num [pymedian, List.insertionSort, List.orderedInsert]
    have hne : ([100, 200, 300] : List ℚ) ≠ [] := by simp
    rw [calculate_stats, if_neg hne, h1, h2, h3, h4]

/-- A route result with ten successes out of ten probes whose mean
first-byte latency is one twentieth of a second (50 ms). -/
def c5_result : RouteResult :=
  ⟨"R", "https://r.example/v1", "", 10, 0, List.replicate 10 (1 / 5),
    List.replicate 10 (1 / 20), [], ∅⟩

/-- C5: for a route with positive success count (whose first-byte
sequence, by the per-route invariant, has success_count entries and is
hence non-empty), the score equals successCount / testCount * 0.7 +
(1 / (meanFirstByte + 0.1)) * 0.3 with the mean in seconds; at
successCount = testCount = 10 and mean first-byte 0.05 s the score is
2.7. -/
theorem C5_score_formula :
    (∀ (tc : ℕ) (result : RouteResult),
        0 < result.success_count →
        result.first_byte_times.length = result.success_count →
        route_score tc result
          = ((result.success_count : ℚ) / (tc : ℚ)) * (7 / 10)
            + (1 / (pymean result.first_byte_times + 1 / 10)) * (3 / 10))
    ∧ route_score 10 c5_result = 27 / 10 := by
  constructor
  · intro tc result hpos hlen
    have hne : result.first_byte_times ≠ [] := by
      intro h0
      rw [h0] at hlen
      simp at hlen
      omega
    unfold route_score
    rw [if_pos hne]
  · have hmean : pymean c5_result.first_byte_times = 1 / 20 := by
      norm_num [pymean, c5_result, List.sum_replicate]
    have hne : c5_result.first_byte_times ≠ [] := by
      simp [c5_result]
    unfold route_score
    rw [if_pos hne, hmean]
    norm_num [c5_result]

/-- C5 witness: the general formula applied at the concrete example. -/
theorem C5_score_formula_witness :
    route_score 10 c5_result
      = ((c5_result.success_count : ℚ) / (10 : ℚ)) * (7 / 10)
        + (1 / (pymean c5_result.first_byte_times + 1 / 10)) * (3 / 10) :=
  C5_score_formula.1 10 c5_result (by decide) (by decide)

/-- C9: whenever a probe's outcome is a failure of any kind - bad HTTP
status, no response data, timeout, connection or client error, or any
other exception - the returned outcome carries total_time = 0 and
first_byte_time = 0, under both the async and the sync prober. -/
theorem C9_failed_probe_zero_durations (start : ℚ) (tid : ℕ)
    (anet : AsyncNetBehavior) (snet : SyncNetBehavior) :
    ((test_single_request_async start tid anet).success = false →
      (test_single_request_async start tid anet).total_time = 0
        ∧ (test_single_request_async start tid anet).first_byte_time = 0)
    ∧ ((test_single_request_sync start tid snet).success = false →
      (test_single_request_sync start tid snet).total_time = 0
        ∧ (test_single_request_sync start tid snet).first_byte_time = 0) := by
  constructor
  · intro hfail
    cases anet with
    | timeoutExc => exact ⟨rfl, rfl⟩
    | clientError m => exact ⟨rfl, rfl⟩
    | otherExc m => exact ⟨rfl, rfl⟩
    | response status chunks endTime =>
      by_cases hs : status ≠ 200
      · constructor <;> simp [test_single_request_async, hs]
      · cases hf : chunks.find? (fun c => c.nonempty) with
        | none => constructor <;> simp [test_single_request_async, hs, hf]
        | some c =>
          exfalso
          simp [test_single_request_async, hs, hf] at hfail
  · intro hfail
    cases snet with
    | timeoutExc => exact ⟨rfl, rfl⟩
    | connectionError => exact ⟨rfl, rfl⟩
    | otherExc m => exact ⟨rfl, rfl⟩
    | response status chunks endTime =>
      by_cases hs : status ≠ 200
      · constructor <;> simp [test_single_request_sync, hs]
      · cases hf : chunks.find? (fun c => c.nonempty) with
        | none => constructor <;> simp [test_single_request_sync, hs, hf]
        | some c =>
          exfalso
          simp [test_single_request_sync, hs, hf] at hfail

/-- C9 witness: the theorem applied to a timed-out async probe and a
connection-refused sync probe. -/
theorem C9_failed_probe_zero_durations_witness :
    (test_single_request_async 0 0 .timeoutExc).total_time = 0
    ∧ (test_single_request_async 0 0 .timeoutExc).first_byte_time = 0
    ∧ (test_single_request_sync 0 0 .connectionError).total_time = 0
    ∧ (test_single_request_sync 0 0 .connectionError).first_byte_time = 0 := by
  have h := C9_failed_probe_zero_durations 0 0 .timeoutExc .connectionError
  have h1 := h.1 rfl
  have h2 := h.2 rfl
  exact ⟨h1.1, h1.2, h2.1, h2.2⟩

/-- C4: for every mix of probe outcomes - all successes, all failures,
any combination, including probes that raise exceptions - the finalized
route result satisfies success_count + fail_count = test_count, under
both strategies (the thread-based strategy observes the test_count
submitted outcomes in an arbitrary completion order). -/
theorem C4_count_invariant (rn u d : String) (tc : ℕ)
    (probe : ℕ → ProbeItem) (completed : List ProbeItem)
    (h : completed.Perm ((List.range tc).map probe)) :
    (test_route_async rn u d tc probe).success_count
        + (test_route_async rn u d tc probe).fail_count = tc
    ∧ (test_route_sync rn u d completed).success_count
        + (test_route_sync rn u d completed).fail_count = tc := by
  constructor
  · unfold test_route_async
    rw [foldl_record_success_count, foldl_record_fail_count]
    simp only [initRouteResult, Nat.zero_add]
    rw [countP_success_add_fail]
    simp
  · unfold test_route_sync
    rw [foldl_record_success_count, foldl_record_fail_count]
    simp only [initRouteResult, Nat.zero_add]
    rw [countP_success_add_fail, h.length_eq]
    simp

/-- A deterministic fake prober: probe 0 succeeds in 1 s, probe 1 fails
with a timeout, probe 2 succeeds in 2 s. -/
def fake_probe : ℕ → ProbeItem := fun i =>
  if i = 0 then .result ⟨true, 3, 1, "", 11⟩
  else if i = 1 then .result ⟨false, 0, 0, "Timeout", 12⟩
  else .result ⟨true, 5, 2, "", 13⟩

/-- The fake prober's three outcomes in a completion order that differs
from submission order. -/
def fake_completed : List ProbeItem :=
  [.result ⟨true, 5, 2, "", 13⟩, .result ⟨true, 3, 1, "", 11⟩,
   .result ⟨false, 0, 0, "Timeout", 12⟩]

/-- C4 witness: the invariant at the concrete fake prober, with the
completion order a non-trivial permutation of submission order. -/
theorem C4_count_invariant_witness :
    (test_route_async "R" "u" "d" 3 fake_probe).success_count
        + (test_route_async "R" "u" "d" 3 fake_probe).fail_count = 3
    ∧ (test_route_sync "R" "u" "d" fake_completed).success_count
        + (test_route_sync "R" "u" "d" fake_completed).fail_count = 3 :=
  C4_count_invariant "R" "u" "d" 3 fake_probe fake_completed (by decide)

/-- C10: in every finalized route result, the successful total-duration
sequence and the successful first-byte sequence each have exactly
success_count entries and the error-message sequence has exactly
fail_count entries, for any mix of probe outcomes, under both
strategies. -/
theorem C10_sequence_lengths (rn u d : String) (tc : ℕ)
    (probe : ℕ → ProbeItem) (completed : List ProbeItem) :
    ((test_route_async rn u d tc probe).total_times.length
        = (test_route_async rn u d tc probe).success_count
      ∧ (test_route_async rn u d tc probe).first_byte_times.length
        = (test_route_async rn u d tc probe).success_count
      ∧ (test_route_async rn u d tc probe).errors.length
        = (test_route_async rn u d tc probe).fail_count)
    ∧ ((test_route_sync rn u d completed).total_times.length
        = (test_route_sync rn u d completed).success_count
      ∧ (test_route_sync rn u d completed).first_byte_times.length
        = (test_route_sync rn u d completed).success_count
      ∧ (test_route_sync rn u d completed).errors.length
        = (test_route_sync rn u d completed).fail_count) := by
  constructor
  · unfold test_route_async
    rw [foldl_record_success_count, foldl_record_fail_count,
      foldl_record_total_times, foldl_record_first_byte_times,
      foldl_record_errors]
    simp only [initRouteResult, Nat.zero_add, List.nil_append]
    exact ⟨length_filterMap_total _, length_filterMap_first_byte _,
      length_filterMap_error _⟩
  · unfold test_route_sync
    rw [foldl_record_success_count, foldl_record_fail_count,
      foldl_record_total_times, foldl_record_first_byte_times,
      foldl_record_errors]
    simp only [initRouteResult, Nat.zero_add, List.nil_append]
    exact ⟨length_filterMap_total _, length_filterMap_first_byte _,
      length_filterMap_error _⟩

/-- C3: with a deterministic fake prober (probe i is the fixed settled
outcome of the i-th of the test_count probes), the cooperative and the
thread-based route runner - the latter processing the same outcomes in an
arbitrary completion order - produce route results with identical
success_count, identical fail_count, and identical statistics over the
successful total-duration and first-byte-duration sequences. -/
theorem C3_strategy_equivalence (rn u d : String) (tc : ℕ)
    (probe : ℕ → ProbeItem) (completed : List ProbeItem)
    (h : completed.Perm ((List.range tc).map probe)) :
    (test_route_sync rn u d completed).success_count
        = (test_route_async rn u d tc probe).success_count
    ∧ (test_route_sync rn u d completed).fail_count
        = (test_route_async rn u d tc probe).fail_count
    ∧ calculate_stats (test_route_sync rn u d completed).total_times
        = calculate_stats (test_route_async rn u d tc probe).total_times
    ∧ calculate_stats (test_route_sync rn u d completed).first_byte_times
        = calculate_stats (test_route_async rn u d tc probe).first_byte_times := by
  unfold test_route_sync test_route_async
  refine ⟨?_, ?_, ?_, ?_⟩
  · rw [foldl_record_success_count, foldl_record_success_count,
      List.Perm.countP_eq _ h]
  · rw [foldl_record_fail_count, foldl_record_fail_count,
      List.Perm.countP_eq _ h]
  · rw [foldl_record_total_times, foldl_record_total_times]
    simp only [initRouteResult, List.nil_append]
    exact calculate_stats_perm (h.filterMap _)
  · rw [foldl_record_first_byte_times, foldl_record_first_byte_times]
    simp only [initRouteResult, List.nil_append]
    exact calculate_stats_perm (h.filterMap _)

/-- C3 witness: the equivalence at the concrete fake prober with a
shuffled completion order. -/
theorem C3_strategy_equivalence_witness :
    (test_route_sync "R" "u" "d" fake_completed).success_count
        = (test_route_async "R" "u" "d" 3 fake_probe).success_count
    ∧ (test_route_sync "R" "u" "d" fake_completed).fail_count
        = (test_route_async "R" "u" "d" 3 fake_probe).fail_count
    ∧ calculate_stats (test_route_sync "R" "u" "d" fake_completed).total_times
        = calculate_stats (test_route_async "R" "u" "d" 3 fake_probe).total_times
    ∧ calculate_stats
          (test_route_sync "R" "u" "d" fake_completed).first_byte_times
        = calculate_stats
            (test_route_async "R" "u" "d" 3 fake_probe).first_byte_times :=
  C3_strategy_equivalence "R" "u" "d" 3 fake_probe fake_completed (by decide)

/-- C6: a route with zero successes is never selected as the best route,
even when it is the only configured route; and when no route has any
success, best_route is None, so the recommendation panel is not
rendered. -/
theorem C6_best_route_requires_success (tc : ℕ)
    (results : List RouteResult) :
    (∀ r, best_route tc results = some r → 0 < r.success_count)
    ∧ ((∀ r ∈ results, r.success_count = 0) → best_route tc results = none) := by
  constructor
  · intro r hr
    unfold best_route best_route_fold at hr
    rcases foldl_best_step_cases tc (sorted_results results) (none, -1) with
      h | ⟨s, _, heq, hpos⟩
    · rw [h] at hr
      exact Option.noConfusion hr
    · rw [heq] at hr
      have hsr : s = r := Option.some.inj hr
      rw [hsr] at hpos
      exact hpos
  · intro hall
    unfold best_route best_route_fold
    have hall2 : ∀ r ∈ sorted_results results, r.success_count = 0 := by
      intro r hr
      exact hall r ((List.perm_insertionSort display_ge results).mem_iff.mp hr)
    rw [foldl_best_step_all_zero tc _ hall2]

/-- A route result with five successes used in the C6 witness. -/
def c6_success : RouteResult := ⟨"S", "u", "", 5, 5, [1], [1], [], ∅⟩

/-- A route result with zero successes used in the C6 witness. -/
def c6_zero : RouteResult := ⟨"Z", "u", "", 0, 10, [], [], ["Timeout"], ∅⟩

/-- C6 witness: a selected best route has positive success count, and a
run whose only route has zero successes selects no best route. -/
theorem C6_best_route_requires_success_witness :
    0 < c6_success.success_count ∧ best_route 10 [c6_zero] = none := by
  constructor
  · refine (C6_best_route_requires_success 10 [c6_success]).1 c6_success ?_
    have hsort : sorted_results [c6_success] = [c6_success] := rfl
    have hpos : (0 : ℕ) < c6_success.success_count := by
      norm_num [c6_success]
    have hscore : (-1 : ℚ) < route_score 10 c6_success := by
      have h1 : route_score 10 c6_success
          = (5 / 10 : ℚ) * (7 / 10) + (1 / ((1 : ℚ) + 1 / 10)) * (3 / 10) := by
        norm_num [route_score, c6_success, pymean]
      rw [h1]
      norm_num
    unfold best_route best_route_fold
    rw [hsort, List.foldl_cons, List.foldl_nil]
    unfold best_step
    rw [if_pos hpos]
    simp only []
    rw [if_pos hscore]
  · exact (C6_best_route_requires_success 10 [c6_zero]).2 (by
      intro r hr
      rcases List.mem_singleton.mp hr with rfl
      rfl)

/-- Route A of the C7 ranking example: 8 successes, mean first-byte time
0.3 s. -/
def c7_routeA : RouteResult :=
  ⟨"A", "u", "", 8, 2, [3 / 10], [3 / 10], [], ∅⟩

/-- Route B of the C7 ranking example: 10 successes, mean first-byte time
0.5 s. -/
def c7_routeB : RouteResult :=
  ⟨"B", "u", "", 10, 0, [1 / 2], [1 / 2], [], ∅⟩

/-- C7: the display ordering sorts routes by success_count descending and,
among routes with equal success counts that both have latency data, by
lower mean first-byte duration first; concretely, route B (10 successes,
mean first byte 0.5 s) is placed before route A (8 successes, mean first
byte 0.3 s). -/
theorem C7_display_order :
    (∀ results : List RouteResult,
      (sorted_results results).Pairwise (fun a b =>
        b.success_count < a.success_count
        ∨ (a.success_count = b.success_count
            ∧ (a.first_byte_times ≠ [] → b.first_byte_times ≠ [] →
                pymean a.first_byte_times ≤ pymean b.first_byte_times))))
    ∧ sorted_results [c7_routeA, c7_routeB] = [c7_routeB, c7_routeA] := by
  constructor
  · intro results
    have hs := List.sorted_insertionSort display_ge results
    refine hs.imp ?_
    intro a b hab
    rcases hab with h1 | ⟨h1, h2⟩
    · left
      have h1a : ((b.success_count : ℚ)) < ((a.success_count : ℚ)) := h1
      exact_mod_cast h1a
    · right
      constructor
      · have h1a : ((a.success_count : ℚ)) = ((b.success_count : ℚ)) := h1
        exact_mod_cast h1a
      · intro hna hnb
        have h2a : (display_key b).2 ≤ (display_key a).2 := h2
        simp only [display_key] at h2a
        rw [if_pos hna, if_pos hnb, calculate_stats_avg hna,
          calculate_stats_avg hnb] at h2a
        exact neg_le_neg_iff.mp h2a
  · have hAB : ¬ display_ge c7_routeA c7_routeB := by
      unfold display_ge display_key
      push_neg
      constructor
      · norm_num [c7_routeA, c7_routeB]
      · intro h1
        exfalso
        norm_num [c7_routeA, c7_routeB] at h1
    unfold sorted_results
    simp only [List.insertionSort, List.orderedInsert, if_neg hAB]

/-- Concrete first configured route for the scheduler examples. -/
def routeA : RouteInfo := ⟨"A", "https://a.example/v1", "first"⟩

/-- Concrete second configured route for the scheduler examples. -/
def routeB : RouteInfo := ⟨"B", "https://b.example/v1", "second"⟩

/-- The route result a normally-finishing runner returns for a route. -/
def resultFor (rc : RouteInfo) : RouteResult :=
  ⟨rc.name, rc.url, rc.description, 10, 0, [1], [1], [], ∅⟩

/-- A route runner that finishes normally on every route. -/
def okRunner (rc : RouteInfo) : RunnerOutcome := .ok (resultFor rc)

/-- A route runner that raises a structural exception on route A and
finishes normally on every other route. -/
def failARunner (rc : RouteInfo) : RunnerOutcome :=
  if rc.name = "A" then .exc "boom" else .ok (resultFor rc)

/-- C1 counterexample: under the thread-based strategy, with
configuration order A then B and completion order B then A (a legitimate
permutation of the configured routes), self.results lists B before A -
not the configuration order, which lists A before B. -/
theorem C1_counterexample :
    ([routeB, routeA].Perm [routeA, routeB])
    ∧ (run_tests_sync okRunner [routeB, routeA]).map RouteResult.route_name
        = ["B", "A"]
    ∧ [routeA, routeB].map RouteInfo.name = ["A", "B"]
    ∧ (["B", "A"] : List String) ≠ ["A", "B"] := by
  refine ⟨by decide, by decide, by decide, by decide⟩

/-- C1 amended: under the cooperative (async) strategy self.results lists
routes in configuration order; under the thread-based strategy, when
every runner returns normally, self.results lists routes in completion
order - an arbitrary permutation of the configured routes - hence is a
permutation of, but not necessarily equal to, the configuration-order
list. -/
theorem C1_amended_ordering :
    (∀ (routes : List RouteInfo) (runner : RouteInfo → RunnerOutcome)
        (res : RouteInfo → RouteResult),
        (∀ rc ∈ routes, runner rc = .ok (res rc)) →
        run_tests_async routes runner = .ok (routes.map res))
    ∧ (∀ (routes completed : List RouteInfo)
        (runner : RouteInfo → RunnerOutcome) (res : RouteInfo → RouteResult),
        completed.Perm routes →
        (∀ rc ∈ routes, runner rc = .ok (res rc)) →
        run_tests_sync runner completed = completed.map res
          ∧ (run_tests_sync runner completed).Perm (routes.map res)) := by
  have key : ∀ (runner : RouteInfo → RunnerOutcome) (res : RouteInfo → RouteResult)
      (cs : List RouteInfo), (∀ rc ∈ cs, runner rc = .ok (res rc)) →
      cs.filterMap (fun rc =>
          match runner rc with
          | .ok r => some r
          | .exc _ => none) = cs.map res := by
    intro runner res cs
    induction cs with
    | nil => intro _; rfl
    | cons c t ih =>
      intro h
      rw [List.filterMap_cons, h c (List.mem_cons_self _ _)]
      simp [ih (fun x hx => h x (List.mem_cons.mpr (Or.inr hx)))]
  constructor
  · exact run_tests_async_all_ok
  · intro routes completed runner res hperm hok
    have hok2 : ∀ rc ∈ completed, runner rc = .ok (res rc) :=
      fun rc hrc => hok rc (hperm.mem_iff.mp hrc)
    have heq : run_tests_sync runner completed = completed.map res := by
      rw [run_tests_sync_eq_filterMap]
      exact key runner res completed hok2
    exact ⟨heq, heq ▸ hperm.map res⟩

/-- C1 amended witness: the async scheduler on configuration order A, B
and the sync scheduler on completion order B, A. -/
theorem C1_amended_ordering_witness :
    run_tests_async [routeA, routeB] okRunner
        = .ok ([routeA, routeB].map resultFor)
    ∧ run_tests_sync okRunner [routeB, routeA]
        = [routeB, routeA].map resultFor :=
  ⟨C1_amended_ordering.1 [routeA, routeB] okRunner resultFor (by decide),
   (C1_amended_ordering.2 [routeA, routeB] [routeB, routeA] okRunner resultFor
      (by decide) (by decide)).1⟩

/-- C2 counterexample: when the runner for route A raises a structural
exception, the async scheduler aborts the whole run (the route-level
gather has no return_exceptions, so the exception propagates and nothing
is recorded), and the thread-based scheduler completes route B but
records no RouteResult at all for route A - in particular no result with
fail count equal to the per-route test count. -/
theorem C2_counterexample :
    run_tests_async [routeA, routeB] failARunner = .exc "boom"
    ∧ run_tests_sync failARunner [routeA, routeB] = [resultFor routeB]
    ∧ ¬ ∃ r ∈ run_tests_sync failARunner [routeA, routeB],
        r.route_name = "A" := by
  refine ⟨by decide, by decide, by decide⟩

/-- C2 amended: a structural runner exception does not abort the other
routes under the thread-based strategy - self.results is exactly the
normally-returned RouteResults in completion order - but the faulted
route is dropped entirely (no all-failed RouteResult is recorded for
it); under the cooperative (async) strategy the exception propagates and
the run aborts with no results at all. -/
theorem C2_amended_structural_fault :
    (∀ (runner : RouteInfo → RunnerOutcome) (completed : List RouteInfo),
        run_tests_sync runner completed
          = completed.filterMap (fun rc =>
              match runner rc with
              | .ok r => some r
              | .exc _ => none))
    ∧ (∀ (routes : List RouteInfo) (runner : RouteInfo → RunnerOutcome),
        (∃ rc ∈ routes, ∃ m, runner rc = .exc m) →
        ∃ m, run_tests_async routes runner = .exc m) :=
  ⟨run_tests_sync_eq_filterMap, run_tests_async_exc⟩

/-- C2 amended witness: the failing-on-A runner over routes A and B. -/
theorem C2_amended_structural_fault_witness :
    run_tests_sync failARunner [routeB, routeA]
        = [routeB, routeA].filterMap (fun rc =>
            match failARunner rc with
            | .ok r => some r
            | .exc _ => none)
    ∧ ∃ m, run_tests_async [routeA, routeB] failARunner = .exc m :=
  ⟨C2_amended_structural_fault.1 failARunner [routeB, routeA],
   C2_amended_structural_fault.2 [routeA, routeB] failARunner
     ⟨routeA, by decide, "boom", by decide⟩⟩
